import Mathlib

/-!
# Bastion: a relay for secure-shell sessions

A shallow embedding of `bastion.go`.  Every function of the source that talks
to the outside world (the ssh library, the logger, the network) is embedded as
a pure function that returns the list of calls it makes, in program order.
What the outside world answers to those calls (the error of a handshake, the
values returned by `ch.SendRequest`, the message received by a `select` case)
is an input of the embedded function.

Goroutines started with `go` are recorded as an action of the thread that
starts them; the calls made by the goroutine started by
`go channelForward(...)` are given by `channelForward` itself.
-/

namespace Bastion

/-! ## Data model -/

/-- The payload of a request, a Go byte slice. -/
abbrev Bytes := List (Fin 256)

/-- The fields of `ssh.Request` that the program reads: `Type`, `WantReply`
and `Payload`. -/
structure Request where
  reqType : String
  WantReply : Bool
  Payload : Bytes
  deriving DecidableEq, Repr

/-- The two session channels of `handleSession`. -/
inductive Chan
  | serverChannel
  | clientChannel
  deriving DecidableEq, Repr

/-- The type `ssh.RejectionReason` of the ssh library. -/
inductive RejectionReason
  | Prohibited
  | ConnectionFailed
  | UnknownChannelType
  | ResourceShortage
  deriving DecidableEq, Repr

/-- The calls the program makes on its collaborators. -/
inductive Action
  /-- Call `log.Print(err)`. -/
  | Log (err : String)
  /-- Call `conn.Close()` (deferred in `handleConnection`). -/
  | ConnClose
  /-- Call `sshConn.Close()` (deferred in `handleConnection`). -/
  | SshConnClose
  /-- Statement `go ssh.DiscardRequests(reqs)`. -/
  | GoDiscardRequests
  /-- Call `ch.Reject(reason, message)` on a channel-open request. -/
  | Reject (reason : RejectionReason) (message : String)
  /-- Call `ch.Accept()` on a channel-open request. -/
  | Accept
  /-- Call `ssh.Dial(network, addr, config)`. -/
  | Dial
  /-- Call `client.OpenChannel(name, nil)`. -/
  | OpenChannel (name : String)
  /-- Call `ch.Close()` on a session channel. -/
  | ChanClose (ch : Chan)
  /-- Statement `go channelForward(a, b)`. -/
  | GoChannelForward (a b : Chan)
  /-- Call `ch.SendRequest(name, wantReply, payload)`. -/
  | SendRequest (ch : Chan) (name : String) (wantReply : Bool) (payload : Bytes)
  /-- Call `msg.Reply(ok, payload)`; a nil payload is `none`. -/
  | Reply (msg : Request) (ok : Bool) (payload : Option Bytes)
  deriving DecidableEq, Repr

/-- The two values returned by `ch.SendRequest`: `ok, err`. -/
structure SendResult where
  ok : Bool
  err : Option String
  deriving DecidableEq, Repr

/-! ## sendRequest -/

/-- The function `sendRequest(ch, msg)`; a nil `msg` is `none`, and `res` is
what `ch.SendRequest` returns when it is called. -/
def sendRequest (ch : Chan) (msg : Option Request) (res : SendResult) : List Action :=
  match msg with
  | none => []
  | some m =>
    [Action.SendRequest ch m.reqType m.WantReply m.Payload]
      ++ (match res.err with
          | some err => [Action.Log err]
          | none => [])
      ++ (if m.WantReply then [Action.Reply m res.ok none] else [])

/-- The requests issued on channel `ch` in a run, in order: type, want-reply
flag and payload of each `SendRequest` call. -/
def sentOn (ch : Chan) : List Action → List (String × Bool × Bytes)
  | [] => []
  | Action.SendRequest c n w p :: rest =>
    if c = ch then (n, w, p) :: sentOn ch rest else sentOn ch rest
  | _ :: rest => sentOn ch rest

/-- The replies delivered in a run, in order: the request replied to, the
success flag and the payload of each `Reply` call. -/
def replies : List Action → List (Request × Bool × Option Bytes)
  | [] => []
  | Action.Reply m ok p :: rest => (m, ok, p) :: replies rest
  | _ :: rest => replies rest

/-- A reply as the handler at the far end of a channel produces it: a success
flag and an optional payload. -/
structure PeerReply where
  ok : Bool
  payload : Option Bytes
  deriving DecidableEq, Repr

/-- What `ch.SendRequest` returns to its caller when the far end answered with
`r`: the method has the two results `ok, err` and no third one for a payload,
so only the success flag of `r` comes back. -/
def SendResult.ofReply (r : PeerReply) : SendResult :=
  { ok := r.ok, err := none }

/-! ## channelForward -/

/-- The variable `once` of `channelForward`, a `sync.Once`: whether its action
has already run. -/
structure Once where
  done : Bool
  deriving DecidableEq, Repr

/-- The method `once.Do(f)`: runs `f` when it has not run before.  `sync.Once`
serialises concurrent callers, so a call is one atomic step. -/
def Once.Do (o : Once) (f : List Action) : List Action × Once :=
  if o.done then ([], o) else (f, { done := true })

/-- The two copies of `channelForward`: `io.Copy(a, b)` in the inner goroutine
and `io.Copy(b, a)` in the body. -/
inductive Copy
  | aFromB
  | bFromA
  deriving DecidableEq, Repr

/-- The calls of `channelForward(a, b)` from a given state of `once`, where
`finished` lists the copies that have terminated, in the order in which they
reach their `once.Do(close)`. -/
def channelForwardFrom (a b : Chan) (o : Once) : List Copy → List Action
  | [] => []
  | _ :: rest =>
    ((o.Do [Action.ChanClose a, Action.ChanClose b]).1)
      ++ channelForwardFrom a b ((o.Do [Action.ChanClose a, Action.ChanClose b]).2) rest

/-- The function `channelForward(a, b)`: `once` starts unfired, and each copy
that terminates is followed by `once.Do(close)`, where `close` closes `a` and
then `b`. -/
def channelForward (a b : Chan) (finished : List Copy) : List Action :=
  channelForwardFrom a b { done := false } finished

/-! ## newSession and handleSession -/

/-- What the backend answers during `newSession`: the error of `ssh.Dial`
(dial or handshake) and the error of `client.OpenChannel`, if any. -/
structure Remote where
  dialErr : Option String
  openErr : Option String
  deriving DecidableEq, Repr

/-- The function `newSession`: its calls, and the error it returns (`none`
when it returns the outbound channel and its request stream). -/
def newSession (r : Remote) : List Action × Option String :=
  match r.dialErr with
  | some err => ([Action.Dial], some err)
  | none =>
    match r.openErr with
    | some err => ([Action.Dial, Action.OpenChannel "session"], some err)
    | none => ([Action.Dial, Action.OpenChannel "session"], none)

/-- The case of the `select` in `handleSession` that fires in one iteration,
with the value received (`none` is the nil received from a closed stream). -/
inductive SelectCase
  | serverRequests (msg : Option Request)
  | clientRequests (msg : Option Request)
  deriving DecidableEq, Repr

/-- One iteration of the request loop: the case that fires, and what
`SendRequest` returns on the destination channel if it is called. -/
structure Iteration where
  recv : SelectCase
  result : SendResult
  deriving DecidableEq, Repr

/-- The body of the `select` statement of `handleSession`, for one iteration. -/
def selectBody (it : Iteration) : List Action :=
  match it.recv with
  | SelectCase.serverRequests msg => sendRequest Chan.clientChannel msg it.result
  | SelectCase.clientRequests msg => sendRequest Chan.serverChannel msg it.result

/-- The loop `for { select { ... } }` of `handleSession` over the iterations
observed so far.  The loop has no `break` and no `return`. -/
def requestLoop : List Iteration → List Action
  | [] => []
  | it :: rest => selectBody it ++ requestLoop rest

/-- Where a call of `handleSession` stands once the observed iterations are
used up: it has returned, or it is inside its request loop. -/
inductive SessionStatus
  | returned
  | looping
  deriving DecidableEq, Repr

/-- A function activation: the calls made by its body, the calls registered
with `defer` (the last registered first), and where the body stands. -/
structure Frame where
  trace : List Action
  defers : List Action
  status : SessionStatus
  deriving DecidableEq, Repr

/-- The deferred calls run when, and only when, the function returns. -/
def Frame.run (f : Frame) : List Action × SessionStatus :=
  match f.status with
  | SessionStatus.returned => (f.trace ++ f.defers, SessionStatus.returned)
  | SessionStatus.looping => (f.trace, SessionStatus.looping)

/-- The body of `handleSession(serverChannel, serverRequests)`. -/
def handleSessionBody (r : Remote) (its : List Iteration) : Frame :=
  match newSession r with
  | (t, some err) =>
    { trace := t ++ [Action.Log err]
      defers := [Action.ChanClose Chan.serverChannel]
      status := SessionStatus.returned }
  | (t, none) =>
    { trace := t ++ [Action.GoChannelForward Chan.serverChannel Chan.clientChannel]
        ++ requestLoop its
      defers := [Action.ChanClose Chan.clientChannel, Action.ChanClose Chan.serverChannel]
      status := SessionStatus.looping }

/-- The function `handleSession`: the calls of its own thread and where it
stands. -/
def handleSession (r : Remote) (its : List Iteration) : List Action × SessionStatus :=
  (handleSessionBody r its).run

/-- The calls of the goroutines that a thread starts with
`go channelForward(a, b)`, when the copies in `finished` terminate. -/
def forwarderCalls (finished : List Copy) : List Action → List Action
  | [] => []
  | Action.GoChannelForward a b :: rest =>
    channelForward a b finished ++ forwarderCalls finished rest
  | _ :: rest => forwarderCalls finished rest

/-- How many times `Close` is invoked on session channel `ch` in one execution
of `handleSession`: by its own thread and by the forwarder it starts. -/
def closeCount (ch : Chan) (r : Remote) (its : List Iteration) (finished : List Copy) : Nat :=
  ((handleSession r its).1).count (Action.ChanClose ch)
    + (forwarderCalls finished (handleSession r its).1).count (Action.ChanClose ch)

/-! ## handleConnection -/

/-- A channel-open request received on `chans`, with what the outside world
answers while it is handled: the error of `ch.Accept()` if any, the answers of
the backend, and the iterations of the request loop observed. -/
structure NewChannel where
  ChannelType : String
  acceptErr : Option String
  remote : Remote
  iterations : List Iteration
  deriving DecidableEq, Repr

/-- Where the loop `for ch := range chans` stands after the requests received
so far: at `range`, about to receive the next request; left by the `return`
after a rejection; or inside a call of `handleSession` that is in its request
loop. -/
inductive LoopStatus
  | ranging
  | rejected
  | relaying
  deriving DecidableEq, Repr

/-- The loop `for ch := range chans` of `handleConnection`. -/
def dispatch : List NewChannel → List Action × LoopStatus
  | [] => ([], LoopStatus.ranging)
  | ch :: rest =>
    if ch.ChannelType ≠ "session" then
      ([Action.Reject RejectionReason.UnknownChannelType ch.ChannelType], LoopStatus.rejected)
    else
      match ch.acceptErr with
      | some err =>
        (Action.Accept :: Action.Log err :: (dispatch rest).1, (dispatch rest).2)
      | none =>
        match handleSession ch.remote ch.iterations with
        | (t, SessionStatus.looping) => (Action.Accept :: t, LoopStatus.relaying)
        | (t, SessionStatus.returned) =>
          (Action.Accept :: t ++ (dispatch rest).1, (dispatch rest).2)

/-- Where a call of `handleConnection` stands: it has returned; it waits at
`range chans` for a request on a stream that is still open; or it is inside a
call of `handleSession` that is in its request loop. -/
inductive ConnStatus
  | returned
  | waiting
  | relaying
  deriving DecidableEq, Repr

/-- The function `handleConnection(conn)`.  `handshakeErr` is the error of
`ssh.NewServerConn` if any, `chans` the channel-open requests received, and
`closed` tells whether the stream `chans` is closed after them. -/
def handleConnection (handshakeErr : Option String) (chans : List NewChannel)
    (closed : Bool) : List Action × ConnStatus :=
  match handshakeErr with
  | some err => ([Action.Log err, Action.ConnClose], ConnStatus.returned)
  | none =>
    match dispatch chans with
    | (t, LoopStatus.rejected) =>
      (Action.GoDiscardRequests :: t ++ [Action.SshConnClose, Action.ConnClose],
        ConnStatus.returned)
    | (t, LoopStatus.relaying) => (Action.GoDiscardRequests :: t, ConnStatus.relaying)
    | (t, LoopStatus.ranging) =>
      if closed then
        (Action.GoDiscardRequests :: t ++ [Action.SshConnClose, Action.ConnClose],
          ConnStatus.returned)
      else (Action.GoDiscardRequests :: t, ConnStatus.waiting)

/-- The values received on one of the two request streams during a run of the
request loop, in order. -/
def receivedOn : Chan → List Iteration → List (Option Request)
  | _, [] => []
  | Chan.serverChannel, ⟨SelectCase.serverRequests msg, _⟩ :: rest =>
    msg :: receivedOn Chan.serverChannel rest
  | Chan.clientChannel, ⟨SelectCase.clientRequests msg, _⟩ :: rest =>
    msg :: receivedOn Chan.clientChannel rest
  | ch, _ :: rest => receivedOn ch rest

/-- The type, want-reply flag and payload of a request. -/
def Request.fields (m : Request) : String × Bool × Bytes :=
  (m.reqType, m.WantReply, m.Payload)

/-- Whether an action starts a forwarder (`go channelForward(...)`). -/
def Action.isForward : Action → Bool
  | Action.GoChannelForward _ _ => true
  | _ => false

/-- How many forwarders a run starts. -/
def forwardCount (t : List Action) : Nat :=
  t.countP Action.isForward

/-! ## Sample inputs -/

/-- A channel-open request of a type other than "session". -/
def directTcpip : NewChannel :=
  { ChannelType := "direct-tcpip", acceptErr := none,
    remote := { dialErr := none, openErr := none }, iterations := [] }

/-- A "session" request handled while nothing listens at the backend. -/
def sessionBackendDown : NewChannel :=
  { ChannelType := "session", acceptErr := none,
    remote := { dialErr := some "connection refused", openErr := none }, iterations := [] }

/-- A "session" request handled while the backend is up, with no request
received yet on either stream. -/
def sessionBackendUp : NewChannel :=
  { ChannelType := "session", acceptErr := none,
    remote := { dialErr := none, openErr := none }, iterations := [] }

/-- A "session" request whose `Accept` fails. -/
def sessionAcceptFails : NewChannel :=
  { ChannelType := "session", acceptErr := some "EOF",
    remote := { dialErr := none, openErr := none }, iterations := [] }

/-- An iteration in which a closed inbound stream yields nil. -/
def closedServerStream : Iteration :=
  { recv := SelectCase.serverRequests none, result := { ok := false, err := none } }

/-- An iteration in which a closed outbound stream yields nil. -/
def closedClientStream : Iteration :=
  { recv := SelectCase.clientRequests none, result := { ok := false, err := none } }

/-- A request that asks for a reply. -/
def sampleRequest : Request :=
  { reqType := "shell", WantReply := true, Payload := [7] }

/-- A request that asks for no reply. -/
def sampleNotify : Request :=
  { reqType := "exit-status", WantReply := false, Payload := [0] }

/-- A backend that accepts the dial and the channel. -/
def remoteUp : Remote := { dialErr := none, openErr := none }

/-- A reply with a payload, as a handler at the far end may produce it. -/
def sampleReply : PeerReply := { ok := true, payload := some [1, 2] }

/-! ## Properties of sendRequest -/

theorem sendRequest_some (ch : Chan) (m : Request) (res : SendResult) :
    sendRequest ch (some m) res =
      [Action.SendRequest ch m.reqType m.WantReply m.Payload]
        ++ (match res.err with
            | some err => [Action.Log err]
            | none => [])
        ++ (if m.WantReply then [Action.Reply m res.ok none] else []) := rfl

theorem sentOn_append (ch : Chan) (s t : List Action) :
    sentOn ch (s ++ t) = sentOn ch s ++ sentOn ch t := by
  induction s with
  | nil => rfl
  | cons a s ih =>
    cases a <;> simp [sentOn, ih]
    split <;> simp

theorem replies_append (s t : List Action) :
    replies (s ++ t) = replies s ++ replies t := by
  induction s with
  | nil => rfl
  | cons a s ih => cases a <;> simp [replies, ih]

theorem sentOn_sendRequest (c ch : Chan) (m : Request) (res : SendResult) :
    sentOn c (sendRequest ch (some m) res) = if ch = c then [m.fields] else [] := by
  rw [sendRequest_some]
  rcases res with ⟨ok, _ | e⟩ <;> cases hw : m.WantReply <;>
    by_cases h : ch = c <;> simp [sentOn, h, Request.fields, hw]

/-- C7: a nil request is a no-op for `sendRequest`: it makes no call at all
(no `SendRequest`, no `Reply`, no log entry) and returns. -/
theorem sendRequest_nil (ch : Chan) (res : SendResult) :
    sendRequest ch none res = [] := rfl

/-- C4: for a non-nil request, `sendRequest` issues exactly one `SendRequest`:
the calls on the destination channel are the single call that carries the
type, want-reply flag and payload of the request, and there is no call on the
other channel. -/
theorem sendRequest_forwards_verbatim (ch : Chan) (m : Request) (res : SendResult) :
    sentOn ch (sendRequest ch (some m) res) = [(m.reqType, m.WantReply, m.Payload)]
      ∧ ((sendRequest ch (some m) res).filter
          (fun a => decide (a = Action.SendRequest ch m.reqType m.WantReply m.Payload))).length = 1
      ∧ ∀ c, sentOn c (sendRequest ch (some m) res)
          = if ch = c then [(m.reqType, m.WantReply, m.Payload)] else [] := by
  refine ⟨?_, ?_, ?_⟩
  · simp [sentOn_sendRequest, Request.fields]
  · rw [sendRequest_some]
    rcases res with ⟨ok, _ | e⟩ <;> cases hw : m.WantReply <;> simp [List.filter]
  · intro c
    rw [sentOn_sendRequest]
    rfl

/-- C2, as the code has it: for a request with `WantReply = true`,
`sendRequest` delivers exactly one reply to the requester; its success flag is
the flag returned by the destination's `SendRequest`, and its payload is
always nil. -/
theorem sendRequest_reply_flag_only (ch : Chan) (m : Request) (res : SendResult)
    (hw : m.WantReply = true) :
    replies (sendRequest ch (some m) res) = [(m, res.ok, none)] := by
  rw [sendRequest_some]
  rcases res with ⟨ok, _ | e⟩ <;> simp [replies, hw]

theorem sendRequest_reply_flag_only_witness :
    sampleRequest.WantReply = true ∧
      replies (sendRequest Chan.clientChannel (some sampleRequest)
        (SendResult.ofReply sampleReply)) = [(sampleRequest, true, none)] :=
  ⟨rfl, sendRequest_reply_flag_only Chan.clientChannel sampleRequest
    (SendResult.ofReply sampleReply) rfl⟩

/-- C2, counterexample: the far end answers a request that wants a reply with
success and the payload `[1, 2]`; the reply delivered to the requester has the
success flag but a nil payload, so it is not the reply the far end produced. -/
theorem sendRequest_reply_payload_dropped :
    replies (sendRequest Chan.clientChannel (some sampleRequest)
        (SendResult.ofReply sampleReply))
      = [(sampleRequest, true, none)]
    ∧ replies (sendRequest Chan.clientChannel (some sampleRequest)
        (SendResult.ofReply sampleReply))
      ≠ [(sampleRequest, sampleReply.ok, sampleReply.payload)] := by
  decide

/-! ## Properties of channelForward -/

theorem channelForwardFrom_fired (a b : Chan) (finished : List Copy) :
    channelForwardFrom a b { done := true } finished = [] := by
  induction finished with
  | nil => rfl
  | cons c rest ih => simp [channelForwardFrom, Once.Do, ih]

theorem channelForward_cons (a b : Chan) (c : Copy) (rest : List Copy) :
    channelForward a b (c :: rest) = [Action.ChanClose a, Action.ChanClose b] := by
  simp [channelForward, channelForwardFrom, Once.Do, channelForwardFrom_fired]

/-! ## Properties of the request loop and of handleSession -/

theorem requestLoop_append (s t : List Iteration) :
    requestLoop (s ++ t) = requestLoop s ++ requestLoop t := by
  induction s with
  | nil => rfl
  | cons it s ih => simp [requestLoop, ih]

theorem sendRequest_count_eq_zero (ch : Chan) (msg : Option Request) (res : SendResult)
    (a : Action) (hS : ∀ c n w p, a ≠ Action.SendRequest c n w p)
    (hL : ∀ e, a ≠ Action.Log e) (hR : ∀ m ok p, a ≠ Action.Reply m ok p) :
    (sendRequest ch msg res).count a = 0 := by
  rw [List.count_eq_zero]
  intro hmem
  cases msg with
  | none => simp [sendRequest] at hmem
  | some m =>
    rw [sendRequest_some] at hmem
    simp only [List.mem_append, List.mem_singleton] at hmem
    rcases hmem with (h | h) | h
    · exact hS _ _ _ _ h
    · rcases res with ⟨ok, _ | e⟩
      · simp at h
      · simp only [List.mem_singleton] at h
        exact hL _ h
    · by_cases hw : m.WantReply = true
      · simp only [hw, if_true, List.mem_singleton] at h
        exact hR _ _ _ h
      · simp [hw] at h

theorem requestLoop_count_eq_zero (its : List Iteration)
    (a : Action) (hS : ∀ c n w p, a ≠ Action.SendRequest c n w p)
    (hL : ∀ e, a ≠ Action.Log e) (hR : ∀ m ok p, a ≠ Action.Reply m ok p) :
    (requestLoop its).count a = 0 := by
  induction its with
  | nil => rfl
  | cons it rest ih =>
    rw [requestLoop, List.count_append, ih, Nat.add_zero]
    unfold selectBody
    cases it.recv <;> exact sendRequest_count_eq_zero _ _ _ a hS hL hR

theorem sendRequest_forwardCount (ch : Chan) (msg : Option Request) (res : SendResult) :
    forwardCount (sendRequest ch msg res) = 0 := by
  cases msg with
  | none => rfl
  | some m =>
    rw [sendRequest_some]
    rcases res with ⟨ok, _ | e⟩ <;> cases m.WantReply <;>
      simp [forwardCount, Action.isForward]

theorem forwardCount_append (s t : List Action) :
    forwardCount (s ++ t) = forwardCount s + forwardCount t := by
  simp [forwardCount]

theorem requestLoop_forwardCount (its : List Iteration) :
    forwardCount (requestLoop its) = 0 := by
  induction its with
  | nil => rfl
  | cons it rest ih =>
    rw [requestLoop, forwardCount_append, ih, Nat.add_zero]
    unfold selectBody
    cases it.recv <;> exact sendRequest_forwardCount _ _ _

theorem forwarderCalls_append (fin : List Copy) (s t : List Action) :
    forwarderCalls fin (s ++ t) = forwarderCalls fin s ++ forwarderCalls fin t := by
  induction s with
  | nil => rfl
  | cons a s ih => cases a <;> simp [forwarderCalls, ih]

theorem forwarderCalls_of_forwardCount_zero (fin : List Copy) (t : List Action)
    (h : forwardCount t = 0) : forwarderCalls fin t = [] := by
  induction t with
  | nil => rfl
  | cons a t ih =>
    cases a <;> simp_all [forwarderCalls, forwardCount, Action.isForward]

theorem newSession_trace (r : Remote) :
    (newSession r).1 = [Action.Dial]
      ∨ (newSession r).1 = [Action.Dial, Action.OpenChannel "session"] := by
  rcases r with ⟨_ | d, _ | o⟩ <;> simp [newSession]

theorem newSession_forwardCount (r : Remote) : forwardCount (newSession r).1 = 0 := by
  rcases newSession_trace r with h | h <;> rw [h] <;> rfl

theorem handleSession_established (r : Remote) (its : List Iteration)
    (h : (newSession r).2 = none) :
    handleSession r its =
      ((newSession r).1 ++ [Action.GoChannelForward Chan.serverChannel Chan.clientChannel]
        ++ requestLoop its, SessionStatus.looping) := by
  unfold handleSession handleSessionBody
  rcases hn : newSession r with ⟨t, _ | e⟩
  · rfl
  · rw [hn] at h
    cases h

theorem handleSession_failed (r : Remote) (its : List Iteration) (e : String)
    (h : (newSession r).2 = some e) :
    handleSession r its =
      ((newSession r).1 ++ [Action.Log e, Action.ChanClose Chan.serverChannel],
        SessionStatus.returned) := by
  unfold handleSession handleSessionBody
  rcases hn : newSession r with ⟨t, _ | e'⟩
  · rw [hn] at h
    cases h
  · rw [hn] at h
    cases h
    simp [Frame.run]

theorem newSession_count_chanClose (r : Remote) (c : Chan) :
    (newSession r).1.count (Action.ChanClose c) = 0 := by
  rcases newSession_trace r with h | h <;> rw [h] <;> simp

theorem handleSession_established_no_close (r : Remote) (its : List Iteration)
    (h : (newSession r).2 = none) (c : Chan) :
    (handleSession r its).1.count (Action.ChanClose c) = 0 := by
  rw [handleSession_established r its h]
  simp only [List.count_append, newSession_count_chanClose]
  rw [requestLoop_count_eq_zero its _ (by simp) (by simp) (by simp)]
  simp

theorem handleSession_established_forwarder (r : Remote) (its : List Iteration)
    (h : (newSession r).2 = none) (fin : List Copy) :
    forwarderCalls fin (handleSession r its).1
      = channelForward Chan.serverChannel Chan.clientChannel fin := by
  rw [handleSession_established r its h]
  simp only [forwarderCalls_append]
  rw [forwarderCalls_of_forwardCount_zero fin _ (newSession_forwardCount r),
    forwarderCalls_of_forwardCount_zero fin _ (requestLoop_forwardCount its)]
  simp [forwarderCalls]

/-- C3: in every execution of `handleSession` in which the outbound session is
established, once at least one direction of the copy has terminated (in any
order, one or both), `Close` is invoked exactly once on the inbound channel and
exactly once on the outbound channel, counting the calls of the forwarder and
those of `handleSession` itself. -/
theorem relay_closes_each_channel_once (r : Remote) (its : List Iteration)
    (finished : List Copy) (hest : (newSession r).2 = none) (hfin : finished ≠ []) :
    closeCount Chan.serverChannel r its finished = 1
      ∧ closeCount Chan.clientChannel r its finished = 1 := by
  unfold closeCount
  rw [handleSession_established_no_close r its hest,
    handleSession_established_no_close r its hest,
    handleSession_established_forwarder r its hest]
  cases finished with
  | nil => exact absurd rfl hfin
  | cons c rest =>
    rw [channelForward_cons]
    decide

theorem relay_closes_each_channel_once_witness :
    (newSession remoteUp).2 = none ∧ [Copy.bFromA, Copy.aFromB] ≠ []
      ∧ closeCount Chan.serverChannel remoteUp [] [Copy.bFromA, Copy.aFromB] = 1
      ∧ closeCount Chan.clientChannel remoteUp [] [Copy.bFromA, Copy.aFromB] = 1 :=
  ⟨rfl, by decide,
    relay_closes_each_channel_once remoteUp [] [Copy.bFromA, Copy.aFromB] rfl (by decide)⟩

theorem sendRequest_none (ch : Chan) (res : SendResult) :
    sendRequest ch none res = [] := rfl

theorem sentOn_requestLoop (its : List Iteration) :
    sentOn Chan.clientChannel (requestLoop its)
        = ((receivedOn Chan.serverChannel its).reduceOption).map Request.fields
      ∧ sentOn Chan.serverChannel (requestLoop its)
        = ((receivedOn Chan.clientChannel its).reduceOption).map Request.fields := by
  induction its with
  | nil => exact ⟨rfl, rfl⟩
  | cons it rest ih =>
    obtain ⟨ih1, ih2⟩ := ih
    rcases it with ⟨(_ | m) | (_ | m), res⟩
    · simp only [requestLoop, selectBody, sendRequest_none, List.nil_append, receivedOn,
        List.reduceOption_cons_of_none]
      exact ⟨ih1, ih2⟩
    · simp only [requestLoop, selectBody, sentOn_append, sentOn_sendRequest, receivedOn,
        List.reduceOption_cons_of_some, List.map_cons, ih1, ih2]
      simp
    · simp only [requestLoop, selectBody, sendRequest_none, List.nil_append, receivedOn,
        List.reduceOption_cons_of_none]
      exact ⟨ih1, ih2⟩
    · simp only [requestLoop, selectBody, sentOn_append, sentOn_sendRequest, receivedOn,
        List.reduceOption_cons_of_some, List.map_cons, ih1, ih2]
      simp

theorem sentOn_newSession (c : Chan) (r : Remote) : sentOn c (newSession r).1 = [] := by
  rcases newSession_trace r with h | h <;> rw [h] <;> rfl

/-- C8: when the destination's `SendRequest` returns an error for a non-nil
request, `sendRequest` logs it, still answers the requester if asked to, and
closes no channel.  In `handleSession`, an iteration that meets such a failure
adds exactly these calls to the run and the loop does not stop: every non-nil
request received afterwards, on either stream, is sent on the opposite
channel, in order, after the sends made up to the failure. -/
theorem send_failure_does_not_abort (ch : Chan) (m : Request) (res : SendResult)
    (e : String) (herr : res.err = some e) :
    sendRequest ch (some m) res =
        Action.SendRequest ch m.reqType m.WantReply m.Payload :: Action.Log e
          :: (if m.WantReply then [Action.Reply m res.ok none] else [])
      ∧ (∀ c, Action.ChanClose c ∉ sendRequest ch (some m) res)
      ∧ ∀ (r : Remote) (before after : List Iteration) (it : Iteration),
          (newSession r).2 = none → it.result = res →
          ((it.recv = SelectCase.serverRequests (some m) ∧ ch = Chan.clientChannel)
            ∨ (it.recv = SelectCase.clientRequests (some m) ∧ ch = Chan.serverChannel)) →
          handleSession r (before ++ it :: after) =
              ((handleSession r before).1
                ++ (Action.SendRequest ch m.reqType m.WantReply m.Payload :: Action.Log e
                    :: (if m.WantReply then [Action.Reply m res.ok none] else []))
                ++ requestLoop after, SessionStatus.looping)
            ∧ sentOn Chan.clientChannel (handleSession r (before ++ it :: after)).1 =
                sentOn Chan.clientChannel (handleSession r (before ++ [it])).1
                  ++ ((receivedOn Chan.serverChannel after).reduceOption).map Request.fields
            ∧ sentOn Chan.serverChannel (handleSession r (before ++ it :: after)).1 =
                sentOn Chan.serverChannel (handleSession r (before ++ [it])).1
                  ++ ((receivedOn Chan.clientChannel after).reduceOption).map Request.fields
            ∧ (∀ c, Action.ChanClose c ∉ (handleSession r (before ++ it :: after)).1) := by
  have h1 : sendRequest ch (some m) res =
      Action.SendRequest ch m.reqType m.WantReply m.Payload :: Action.Log e
        :: (if m.WantReply then [Action.Reply m res.ok none] else []) := by
    rw [sendRequest_some, herr]
    rfl
  refine ⟨h1, ?_, ?_⟩
  · intro c
    rw [← List.count_eq_zero]
    exact sendRequest_count_eq_zero _ _ _ _ (by simp) (by simp) (by simp)
  · intro r before after it hest hres hrecv
    have hbody : selectBody it = sendRequest ch (some m) res := by
      rcases hrecv with ⟨hr, hc⟩ | ⟨hr, hc⟩ <;> simp [selectBody, hr, hc, hres]
    have hsplit : requestLoop (before ++ it :: after)
        = requestLoop (before ++ [it]) ++ requestLoop after := by
      rw [← requestLoop_append]
      simp
    refine ⟨?_, ?_, ?_, ?_⟩
    · rw [handleSession_established r _ hest, handleSession_established r _ hest,
        requestLoop_append, requestLoop, hbody, h1]
      simp
    · rw [handleSession_established r _ hest, handleSession_established r _ hest, hsplit]
      simp only [sentOn_append, (sentOn_requestLoop after).1, List.append_assoc]
    · rw [handleSession_established r _ hest, handleSession_established r _ hest, hsplit]
      simp only [sentOn_append, (sentOn_requestLoop after).2, List.append_assoc]
    · intro c
      rw [← List.count_eq_zero]
      exact handleSession_established_no_close r _ hest c

theorem send_failure_does_not_abort_witness :
    (SendResult.mk false (some "EOF")).err = some "EOF"
      ∧ sentOn Chan.clientChannel
          (handleSession remoteUp
            ([closedClientStream]
              ++ ⟨SelectCase.serverRequests (some sampleRequest), ⟨false, some "EOF"⟩⟩
              :: [⟨SelectCase.clientRequests (some sampleNotify), ⟨false, none⟩⟩,
                  ⟨SelectCase.serverRequests (some sampleNotify), ⟨false, none⟩⟩])).1 =
        sentOn Chan.clientChannel
          (handleSession remoteUp
            ([closedClientStream]
              ++ [⟨SelectCase.serverRequests (some sampleRequest), ⟨false, some "EOF"⟩⟩])).1
          ++ ((receivedOn Chan.serverChannel
              [⟨SelectCase.clientRequests (some sampleNotify), ⟨false, none⟩⟩,
               ⟨SelectCase.serverRequests (some sampleNotify), ⟨false, none⟩⟩]).reduceOption).map
              Request.fields :=
  ⟨rfl, ((send_failure_does_not_abort Chan.clientChannel sampleRequest
    (SendResult.mk false (some "EOF")) "EOF" rfl).2.2 remoteUp [closedClientStream]
      [⟨SelectCase.clientRequests (some sampleNotify), ⟨false, none⟩⟩,
       ⟨SelectCase.serverRequests (some sampleNotify), ⟨false, none⟩⟩]
      ⟨SelectCase.serverRequests (some sampleRequest), ⟨false, some "EOF"⟩⟩
      rfl rfl (Or.inl ⟨rfl, rfl⟩)).2.1⟩

/-- C9: in every execution of `handleSession` with an established outbound
session, and for every sequence of `select` outcomes (every interleaving of the
two request streams), the requests sent on the outbound channel are the
non-nil requests received on the inbound stream, in order and each once, and
the requests sent on the inbound channel are the non-nil requests received on
the outbound stream, in order and each once. -/
theorem forwarding_preserves_order (r : Remote) (its : List Iteration)
    (hest : (newSession r).2 = none) :
    sentOn Chan.clientChannel (handleSession r its).1
        = ((receivedOn Chan.serverChannel its).reduceOption).map Request.fields
      ∧ sentOn Chan.serverChannel (handleSession r its).1
        = ((receivedOn Chan.clientChannel its).reduceOption).map Request.fields := by
  rw [handleSession_established r its hest]
  simp only [sentOn_append, sentOn_newSession, sentOn, List.nil_append]
  exact sentOn_requestLoop its

/-! ## Properties of the dispatch loop -/

theorem dispatch_reject (ch : NewChannel) (rest : List NewChannel)
    (hty : ch.ChannelType ≠ "session") :
    dispatch (ch :: rest) =
      ([Action.Reject RejectionReason.UnknownChannelType ch.ChannelType],
        LoopStatus.rejected) := by
  simp [dispatch, hty]

theorem dispatch_accept_failed (ch : NewChannel) (rest : List NewChannel) (e : String)
    (hty : ch.ChannelType = "session") (hacc : ch.acceptErr = some e) :
    dispatch (ch :: rest) =
      (Action.Accept :: Action.Log e :: (dispatch rest).1, (dispatch rest).2) := by
  simp [dispatch, hty, hacc]

theorem dispatch_established (ch : NewChannel) (rest : List NewChannel)
    (hty : ch.ChannelType = "session") (hacc : ch.acceptErr = none)
    (hest : (newSession ch.remote).2 = none) :
    dispatch (ch :: rest) =
      (Action.Accept :: (handleSession ch.remote ch.iterations).1, LoopStatus.relaying) := by
  simp [dispatch, hty, hacc, handleSession_established ch.remote ch.iterations hest]

theorem dispatch_establish_failed (ch : NewChannel) (rest : List NewChannel) (e : String)
    (hty : ch.ChannelType = "session") (hacc : ch.acceptErr = none)
    (hfail : (newSession ch.remote).2 = some e) :
    dispatch (ch :: rest) =
      (Action.Accept :: (handleSession ch.remote ch.iterations).1 ++ (dispatch rest).1,
        (dispatch rest).2) := by
  simp [dispatch, hty, hacc, handleSession_failed ch.remote ch.iterations e hfail]

theorem dispatch_append (pre rest : List NewChannel)
    (h : (dispatch pre).2 = LoopStatus.ranging) :
    dispatch (pre ++ rest) = ((dispatch pre).1 ++ (dispatch rest).1, (dispatch rest).2) := by
  induction pre with
  | nil => rfl
  | cons ch pre ih =>
    by_cases hty : ch.ChannelType = "session"
    · cases hacc : ch.acceptErr with
      | some e =>
        rw [dispatch_accept_failed ch pre e hty hacc] at h
        rw [List.cons_append, dispatch_accept_failed ch (pre ++ rest) e hty hacc,
          dispatch_accept_failed ch pre e hty hacc, ih h]
        rfl
      | none =>
        cases hn : (newSession ch.remote).2 with
        | none =>
          rw [dispatch_established ch pre hty hacc hn] at h
          cases h
        | some e =>
          rw [dispatch_establish_failed ch pre e hty hacc hn] at h
          rw [List.cons_append, dispatch_establish_failed ch (pre ++ rest) e hty hacc hn,
            dispatch_establish_failed ch pre e hty hacc hn, ih h]
          simp
    · rw [dispatch_reject ch pre hty] at h
      cases h

theorem handleSession_failed_forwardCount (r : Remote) (its : List Iteration) (e : String)
    (h : (newSession r).2 = some e) : forwardCount (handleSession r its).1 = 0 := by
  rw [handleSession_failed r its e h, forwardCount_append, newSession_forwardCount]
  rfl

theorem handleSession_established_forwardCount (r : Remote) (its : List Iteration)
    (h : (newSession r).2 = none) : forwardCount (handleSession r its).1 = 1 := by
  rw [handleSession_established r its h, forwardCount_append, forwardCount_append,
    newSession_forwardCount, requestLoop_forwardCount]
  rfl

theorem forwardCount_cons_accept (t : List Action) :
    forwardCount (Action.Accept :: t) = forwardCount t := by
  simp [forwardCount, Action.isForward]

theorem dispatch_forwardCount (chans : List NewChannel) :
    forwardCount (dispatch chans).1
      = if (dispatch chans).2 = LoopStatus.relaying then 1 else 0 := by
  induction chans with
  | nil => rfl
  | cons ch rest ih =>
    by_cases hty : ch.ChannelType = "session"
    · cases hacc : ch.acceptErr with
      | some e =>
        rw [dispatch_accept_failed ch rest e hty hacc]
        simpa [forwardCount, Action.isForward] using ih
      | none =>
        cases hn : (newSession ch.remote).2 with
        | none =>
          rw [dispatch_established ch rest hty hacc hn]
          simp [forwardCount_cons_accept, handleSession_established_forwardCount _ _ hn]
        | some e =>
          rw [dispatch_establish_failed ch rest e hty hacc hn]
          rw [List.cons_append, forwardCount_cons_accept, forwardCount_append,
            handleSession_failed_forwardCount _ _ e hn, Nat.zero_add]
          exact ih
    · rw [dispatch_reject ch rest hty]
      rfl

theorem forwardCount_handleConnection (handshakeErr : Option String)
    (chans : List NewChannel) (closed : Bool) :
    forwardCount (handleConnection handshakeErr chans closed).1
      = forwardCount (dispatch chans).1 ∨
    forwardCount (handleConnection handshakeErr chans closed).1 = 0 := by
  cases handshakeErr with
  | some e => right; rfl
  | none =>
    left
    unfold handleConnection
    rcases hd : dispatch chans with ⟨t, _ | _ | _⟩ <;> cases closed <;>
      simp [forwardCount, Action.isForward]

theorem handleSession_failed_count_accept (r : Remote) (its : List Iteration) (e : String)
    (h : (newSession r).2 = some e) : (handleSession r its).1.count Action.Accept = 0 := by
  rw [handleSession_failed r its e h]
  rcases newSession_trace r with h | h <;> rw [h] <;> simp

theorem dispatch_ranging_count_accept (pre : List NewChannel)
    (h : (dispatch pre).2 = LoopStatus.ranging) :
    (dispatch pre).1.count Action.Accept = pre.length := by
  induction pre with
  | nil => rfl
  | cons ch pre ih =>
    by_cases hty : ch.ChannelType = "session"
    · cases hacc : ch.acceptErr with
      | some e =>
        rw [dispatch_accept_failed ch pre e hty hacc] at h ⊢
        simp [ih h]
      | none =>
        cases hn : (newSession ch.remote).2 with
        | none =>
          rw [dispatch_established ch pre hty hacc hn] at h
          cases h
        | some e =>
          rw [dispatch_establish_failed ch pre e hty hacc hn] at h ⊢
          simp [ih h, handleSession_failed_count_accept _ _ e hn]
    · rw [dispatch_reject ch pre hty] at h
      cases h

/-! ## Properties of handleConnection -/

theorem handleConnection_rejected (chans : List NewChannel) (closed : Bool)
    (h : (dispatch chans).2 = LoopStatus.rejected) :
    handleConnection none chans closed =
      (Action.GoDiscardRequests :: (dispatch chans).1
        ++ [Action.SshConnClose, Action.ConnClose], ConnStatus.returned) := by
  unfold handleConnection
  rcases hd : dispatch chans with ⟨t, _ | _ | _⟩ <;> rw [hd] at h <;> cases h

theorem handleConnection_relaying (chans : List NewChannel) (closed : Bool)
    (h : (dispatch chans).2 = LoopStatus.relaying) :
    handleConnection none chans closed =
      (Action.GoDiscardRequests :: (dispatch chans).1, ConnStatus.relaying) := by
  unfold handleConnection
  rcases hd : dispatch chans with ⟨t, _ | _ | _⟩ <;> rw [hd] at h <;> cases h

/-- C1: when the dispatch loop of `handleConnection` reaches a channel-open
request whose type is not "session", the request is rejected with reason
`UnknownChannelType` and its own type name as message, and it is not accepted
(`Accept` has been called once for each request before it and for no other);
`handleConnection` then returns, closing the connection, whatever requests
follow in the stream, and no forwarder has been started in the whole run. -/
theorem handleConnection_rejects_non_session (pre post : List NewChannel)
    (ch : NewChannel) (closed : Bool)
    (hreach : (dispatch pre).2 = LoopStatus.ranging)
    (hty : ch.ChannelType ≠ "session") :
    handleConnection none (pre ++ ch :: post) closed =
        (Action.GoDiscardRequests :: (dispatch pre).1
          ++ [Action.Reject RejectionReason.UnknownChannelType ch.ChannelType,
              Action.SshConnClose, Action.ConnClose], ConnStatus.returned)
      ∧ (handleConnection none (pre ++ ch :: post) closed).1.count Action.Accept = pre.length
      ∧ forwardCount (handleConnection none (pre ++ ch :: post) closed).1 = 0 := by
  have hd : dispatch (pre ++ ch :: post) =
      ((dispatch pre).1 ++ [Action.Reject RejectionReason.UnknownChannelType ch.ChannelType],
        LoopStatus.rejected) := by
    rw [dispatch_append pre _ hreach, dispatch_reject ch post hty]
  have hc : handleConnection none (pre ++ ch :: post) closed =
      (Action.GoDiscardRequests :: (dispatch pre).1
        ++ [Action.Reject RejectionReason.UnknownChannelType ch.ChannelType,
            Action.SshConnClose, Action.ConnClose], ConnStatus.returned) := by
    rw [handleConnection_rejected _ _ (by rw [hd]), hd]
    simp
  have hf : forwardCount (dispatch pre).1 = 0 := by
    rw [dispatch_forwardCount, hreach]
    rfl
  refine ⟨hc, ?_, ?_⟩
  · rw [hc]
    simp [dispatch_ranging_count_accept pre hreach]
  · rw [hc]
    simp only [List.cons_append, forwardCount_append]
    simp only [forwardCount, Action.isForward, List.countP_cons_of_neg, Bool.false_eq_true,
      not_false_eq_true] at hf ⊢
    simp [hf, Action.isForward]

theorem handleConnection_rejects_non_session_witness :
    (dispatch [sessionBackendDown, sessionAcceptFails]).2 = LoopStatus.ranging
      ∧ directTcpip.ChannelType ≠ "session"
      ∧ handleConnection none
          ([sessionBackendDown, sessionAcceptFails] ++ directTcpip :: [sessionBackendUp]) false =
        (Action.GoDiscardRequests :: (dispatch [sessionBackendDown, sessionAcceptFails]).1
          ++ [Action.Reject RejectionReason.UnknownChannelType directTcpip.ChannelType,
              Action.SshConnClose, Action.ConnClose], ConnStatus.returned)
      ∧ (handleConnection none
          ([sessionBackendDown, sessionAcceptFails] ++ directTcpip :: [sessionBackendUp])
            false).1.count Action.Accept = [sessionBackendDown, sessionAcceptFails].length
      ∧ forwardCount (handleConnection none
          ([sessionBackendDown, sessionAcceptFails] ++ directTcpip :: [sessionBackendUp])
            false).1 = 0 :=
  ⟨by decide, by decide,
    handleConnection_rejects_non_session [sessionBackendDown, sessionAcceptFails]
      [sessionBackendUp] directTcpip false (by decide) (by decide)⟩

/-- C5: in every call of `handleConnection`, whatever the handshake result,
the channel-open requests and their outcomes (failed `Accept`, failed outbound
establishment), `channelForward` is started at most once. -/
theorem at_most_one_session_forwarded (handshakeErr : Option String)
    (chans : List NewChannel) (closed : Bool) :
    forwardCount (handleConnection handshakeErr chans closed).1 ≤ 1 := by
  rcases forwardCount_handleConnection handshakeErr chans closed with h | h
  · rw [h, dispatch_forwardCount]
    split <;> simp
  · rw [h]
    exact Nat.zero_le 1

theorem handleSession_count_connClose (r : Remote) (its : List Iteration) :
    (handleSession r its).1.count Action.ConnClose = 0 := by
  cases hn : (newSession r).2 with
  | none =>
    rw [handleSession_established r its hn]
    simp only [List.count_append]
    rw [requestLoop_count_eq_zero its _ (by simp) (by simp) (by simp)]
    rcases newSession_trace r with h | h <;> rw [h] <;> simp
  | some e =>
    rw [handleSession_failed r its e hn]
    rcases newSession_trace r with h | h <;> rw [h] <;> simp

theorem dispatch_count_connClose (chans : List NewChannel) :
    (dispatch chans).1.count Action.ConnClose = 0 := by
  induction chans with
  | nil => rfl
  | cons ch rest ih =>
    by_cases hty : ch.ChannelType = "session"
    · cases hacc : ch.acceptErr with
      | some e =>
        rw [dispatch_accept_failed ch rest e hty hacc]
        simp [ih]
      | none =>
        cases hn : (newSession ch.remote).2 with
        | none =>
          rw [dispatch_established ch rest hty hacc hn]
          simp [handleSession_count_connClose]
        | some e =>
          rw [dispatch_establish_failed ch rest e hty hacc hn]
          simp [ih, handleSession_count_connClose]
    · rw [dispatch_reject ch rest hty]
      simp

theorem handleConnection_trace (chans : List NewChannel) (closed : Bool) :
    (handleConnection none chans closed).1 =
      Action.GoDiscardRequests :: (dispatch chans).1
        ++ (if (handleConnection none chans closed).2 = ConnStatus.returned
            then [Action.SshConnClose, Action.ConnClose] else []) := by
  unfold handleConnection
  rcases hd : dispatch chans with ⟨t, _ | _ | _⟩ <;> cases closed <;> simp

theorem handleConnection_returned_iff (chans : List NewChannel) (closed : Bool) :
    (handleConnection none chans closed).2 = ConnStatus.returned ↔
      ((dispatch chans).2 = LoopStatus.rejected
        ∨ ((dispatch chans).2 = LoopStatus.ranging ∧ closed = true)) := by
  unfold handleConnection
  rcases hd : dispatch chans with ⟨t, _ | _ | _⟩ <;> cases closed <;> simp

theorem connClose_mem_handleConnection_iff (chans : List NewChannel) (closed : Bool) :
    Action.ConnClose ∈ (handleConnection none chans closed).1 ↔
      (handleConnection none chans closed).2 = ConnStatus.returned := by
  have hno : Action.ConnClose ∉ (dispatch chans).1 := by
    rw [← List.count_eq_zero]
    exact dispatch_count_connClose chans
  rw [handleConnection_trace]
  by_cases hret : (handleConnection none chans closed).2 = ConnStatus.returned
  · simp [hret]
  · simp [hret, hno]

/-- C6, as the code has it: when `newSession` fails, `handleSession` logs the
error, closes the inbound session channel and returns, having started no
forwarder and sent no request.  The connection handler does not abort: its
loop goes on with the channel-open requests that follow on the same
connection, so `handleConnection` returns exactly when a later request is
rejected or the stream of requests ends, and `conn.Close()` is called exactly
when it returns. -/
theorem establish_failure_closes_session_and_continues (pre rest : List NewChannel)
    (ch : NewChannel) (e : String) (closed : Bool)
    (hreach : (dispatch pre).2 = LoopStatus.ranging)
    (hty : ch.ChannelType = "session") (hacc : ch.acceptErr = none)
    (hfail : (newSession ch.remote).2 = some e) :
    handleSession ch.remote ch.iterations =
        ((newSession ch.remote).1 ++ [Action.Log e, Action.ChanClose Chan.serverChannel],
          SessionStatus.returned)
      ∧ forwardCount (handleSession ch.remote ch.iterations).1 = 0
      ∧ (∀ c, sentOn c (handleSession ch.remote ch.iterations).1 = [])
      ∧ dispatch (pre ++ ch :: rest) =
        ((dispatch pre).1 ++ Action.Accept :: (newSession ch.remote).1
            ++ [Action.Log e, Action.ChanClose Chan.serverChannel] ++ (dispatch rest).1,
          (dispatch rest).2)
      ∧ (handleConnection none (pre ++ ch :: rest) closed).1 =
        Action.GoDiscardRequests :: (dispatch pre).1 ++ Action.Accept :: (newSession ch.remote).1
          ++ [Action.Log e, Action.ChanClose Chan.serverChannel] ++ (dispatch rest).1
          ++ (if (dispatch rest).2 = LoopStatus.rejected
                ∨ ((dispatch rest).2 = LoopStatus.ranging ∧ closed = true)
              then [Action.SshConnClose, Action.ConnClose] else [])
      ∧ ((handleConnection none (pre ++ ch :: rest) closed).2 = ConnStatus.returned ↔
          ((dispatch rest).2 = LoopStatus.rejected
            ∨ ((dispatch rest).2 = LoopStatus.ranging ∧ closed = true)))
      ∧ ((handleConnection none (pre ++ ch :: rest) closed).2 = ConnStatus.relaying ↔
          (dispatch rest).2 = LoopStatus.relaying)
      ∧ (Action.ConnClose ∈ (handleConnection none (pre ++ ch :: rest) closed).1 ↔
          ((dispatch rest).2 = LoopStatus.rejected
            ∨ ((dispatch rest).2 = LoopStatus.ranging ∧ closed = true))) := by
  have hd : dispatch (pre ++ ch :: rest) =
      ((dispatch pre).1 ++ Action.Accept :: (newSession ch.remote).1
          ++ [Action.Log e, Action.ChanClose Chan.serverChannel] ++ (dispatch rest).1,
        (dispatch rest).2) := by
    rw [dispatch_append pre _ hreach, dispatch_establish_failed ch rest e hty hacc hfail,
      handleSession_failed _ _ e hfail]
    simp
  have hret := handleConnection_returned_iff (pre ++ ch :: rest) closed
  rw [hd] at hret
  refine ⟨handleSession_failed _ _ e hfail, handleSession_failed_forwardCount _ _ e hfail,
    ?_, hd, ?_, hret, ?_, ?_⟩
  · intro c
    rw [handleSession_failed _ _ e hfail, sentOn_append, sentOn_newSession]
    rfl
  · rw [handleConnection_trace, hd]
    simp only [hret]
    simp
  · unfold handleConnection
    rw [hd]
    rcases dispatch rest with ⟨t, _ | _ | _⟩ <;> cases closed <;> simp
  · rw [connClose_mem_handleConnection_iff]
    exact hret

theorem establish_failure_closes_session_and_continues_witness :
    (dispatch [sessionAcceptFails]).2 = LoopStatus.ranging
      ∧ sessionBackendDown.ChannelType = "session" ∧ sessionBackendDown.acceptErr = none
      ∧ (newSession sessionBackendDown.remote).2 = some "connection refused"
      ∧ (handleConnection none
          ([sessionAcceptFails] ++ sessionBackendDown :: [sessionBackendUp]) false).1 =
        Action.GoDiscardRequests :: (dispatch [sessionAcceptFails]).1
          ++ Action.Accept :: (newSession sessionBackendDown.remote).1
          ++ [Action.Log "connection refused", Action.ChanClose Chan.serverChannel]
          ++ (dispatch [sessionBackendUp]).1
          ++ (if (dispatch [sessionBackendUp]).2 = LoopStatus.rejected
                ∨ ((dispatch [sessionBackendUp]).2 = LoopStatus.ranging ∧ false = true)
              then [Action.SshConnClose, Action.ConnClose] else []) :=
  ⟨by decide, rfl, rfl, rfl,
    (establish_failure_closes_session_and_continues [sessionAcceptFails] [sessionBackendUp]
      sessionBackendDown "connection refused" false (by decide) rfl rfl rfl).2.2.2.2.1⟩

/-- C6, counterexample: the first "session" request meets a backend with
nothing listening, the second one a backend that is up.  After the failure the
connection handler has not returned and has closed nothing of the connection:
it accepts the second request and starts a relay for it.  With the first
request alone and the stream still open, it waits for the next request. -/
theorem establish_failure_does_not_abort_connection :
    handleConnection none [sessionBackendDown, sessionBackendUp] false =
        ([Action.GoDiscardRequests,
          Action.Accept, Action.Dial, Action.Log "connection refused",
          Action.ChanClose Chan.serverChannel,
          Action.Accept, Action.Dial, Action.OpenChannel "session",
          Action.GoChannelForward Chan.serverChannel Chan.clientChannel],
        ConnStatus.relaying)
      ∧ handleConnection none [sessionBackendDown] false =
        ([Action.GoDiscardRequests,
          Action.Accept, Action.Dial, Action.Log "connection refused",
          Action.ChanClose Chan.serverChannel],
        ConnStatus.waiting) := by
  decide

theorem requestLoop_all_nil (its : List Iteration)
    (h : ∀ it ∈ its, it.recv = SelectCase.serverRequests none
      ∨ it.recv = SelectCase.clientRequests none) :
    requestLoop its = [] := by
  induction its with
  | nil => rfl
  | cons it rest ih =>
    have hrest := ih (fun x hx => h x (List.mem_cons_of_mem _ hx))
    rcases h it (List.mem_cons_self _ _) with hit | hit <;>
      simp [requestLoop, selectBody, hit, sendRequest_none, hrest]

/-- C10: once the outbound session is established, `handleSession` does not
return: after any sequence of iterations of its request loop it is still in
the loop, and any further event is handled by one more iteration; when both
streams are closed every iteration receives nil and makes no call.  The two
deferred `Close` calls are registered but never run, and `handleConnection`,
stuck in this call, consumes none of the channel-open requests that follow
and does not return either. -/
theorem handleSession_never_returns (r : Remote) (its : List Iteration)
    (hest : (newSession r).2 = none) :
    (handleSession r its).2 = SessionStatus.looping
      ∧ (∀ it, handleSession r (its ++ [it]) =
          ((handleSession r its).1 ++ selectBody it, SessionStatus.looping))
      ∧ ((∀ it ∈ its, it.recv = SelectCase.serverRequests none
            ∨ it.recv = SelectCase.clientRequests none) →
          handleSession r its = handleSession r [])
      ∧ (handleSessionBody r its).defers =
          [Action.ChanClose Chan.clientChannel, Action.ChanClose Chan.serverChannel]
      ∧ (∀ c, Action.ChanClose c ∉ (handleSession r its).1)
      ∧ ∀ (pre post : List NewChannel) (ch : NewChannel) (closed : Bool),
          (dispatch pre).2 = LoopStatus.ranging → ch.ChannelType = "session" →
          ch.acceptErr = none → ch.remote = r → ch.iterations = its →
          handleConnection none (pre ++ ch :: post) closed =
            (Action.GoDiscardRequests :: (dispatch pre).1
              ++ Action.Accept :: (handleSession r its).1, ConnStatus.relaying) := by
  refine ⟨?_, ?_, ?_, ?_, ?_, ?_⟩
  · rw [handleSession_established r its hest]
  · intro it
    rw [handleSession_established r _ hest, handleSession_established r _ hest]
    simp [requestLoop_append, requestLoop]
  · intro hnil
    rw [handleSession_established r _ hest, handleSession_established r _ hest,
      requestLoop_all_nil its hnil]
    rfl
  · unfold handleSessionBody
    rcases hn : newSession r with ⟨t, _ | e⟩
    · rfl
    · rw [hn] at hest
      cases hest
  · intro c
    rw [← List.count_eq_zero]
    exact handleSession_established_no_close r its hest c
  · intro pre post ch closed hreach hty hacc hr hits
    subst hr hits
    have hd : dispatch (pre ++ ch :: post) =
        ((dispatch pre).1 ++ Action.Accept :: (handleSession ch.remote ch.iterations).1,
          LoopStatus.relaying) := by
      rw [dispatch_append pre _ hreach, dispatch_established ch post hty hacc hest]
    rw [handleConnection_relaying _ _ (by rw [hd]), hd]
    simp

theorem handleSession_never_returns_witness :
    (newSession remoteUp).2 = none
      ∧ (handleSession remoteUp [closedServerStream, closedClientStream]).2
          = SessionStatus.looping :=
  ⟨rfl, (handleSession_never_returns remoteUp [closedServerStream, closedClientStream] rfl).1⟩

theorem forwarding_preserves_order_witness :
    (newSession remoteUp).2 = none
      ∧ sentOn Chan.clientChannel
          (handleSession remoteUp
            [⟨SelectCase.serverRequests (some sampleRequest), ⟨true, none⟩⟩,
             ⟨SelectCase.clientRequests (some sampleNotify), ⟨false, none⟩⟩,
             closedClientStream,
             ⟨SelectCase.serverRequests (some sampleNotify), ⟨false, some "EOF"⟩⟩]).1
        = ((receivedOn Chan.serverChannel
            [⟨SelectCase.serverRequests (some sampleRequest), ⟨true, none⟩⟩,
             ⟨SelectCase.clientRequests (some sampleNotify), ⟨false, none⟩⟩,
             closedClientStream,
             ⟨SelectCase.serverRequests (some sampleNotify), ⟨false, some "EOF"⟩⟩]).reduceOption).map
            Request.fields :=
  ⟨rfl, (forwarding_preserves_order remoteUp
    [⟨SelectCase.serverRequests (some sampleRequest), ⟨true, none⟩⟩,
     ⟨SelectCase.clientRequests (some sampleNotify), ⟨false, none⟩⟩,
     closedClientStream,
     ⟨SelectCase.serverRequests (some sampleNotify), ⟨false, some "EOF"⟩⟩] rfl).1⟩

end Bastion
